import Mathlib

/-!
Shallow embedding of `src/check_reason.py` (repository Chuzyh/Argonium).

The script grades reasoning quality of QA transcripts: it builds a grading
prompt per record, sends it to an external grader model, decodes the raw
response as JSON, maps the categorical label to an integer score, and folds
per-record scores into an average over the first ten records of the batch.

Modelling choices:
* JSON values are the inductive `JsonValue`; Python dicts (as produced by
  `json.loads`, whose keys are unique and ordered by insertion) are ordered
  association lists `List (String × JsonValue)`.  JSON integers and floats
  are kept distinct (`int` over `ℤ`, `float` over `ℚ`; Python's true
  division of ints yields a float, modelled as exact rational division).
* The Python standard-library parser `json.loads` is an abstract parameter
  `loads : String → Option JsonValue`, where `none` models a raising parse
  (`json.JSONDecodeError`).  Theorems quantify over it; concrete witnesses
  instantiate it with the value real `json.loads` produces on the concrete
  response string.
* `generate_answer` is imported from `argonium_score_parallel_v9`, outside
  this file's scope; per the design it is the opaque model-invocation
  collaborator `(text, config) -> text`, modelled as an abstract parameter
  `genAnswer : String → String` (the configuration is already applied).
* Python exceptions are `Except PyError`.  Everything inside the
  `try`/`except` of `evaluate_reasoning_with_model` is caught by the bare
  `except:`, so the interpretation of a raw response is a total function
  `interpretResponse`; uncaught exceptions (`KeyError` on a missing item
  field, `TypeError` on non-dict records, `ZeroDivisionError` on an empty
  batch) surface as `.error`.
* File I/O is modelled away: `process_json_file` takes the decoded input
  document (the dict `json.load` returned) and returns the document that
  would be serialized to the output file, or the escaping exception.
-/

/-- A JSON value as decoded by Python's `json` module.  Objects are ordered
association lists of fields; Python dict invariants (unique keys) hold for
everything `json.loads` can produce and appear as explicit hypotheses where
a theorem needs them. -/
inductive JsonValue where
  | null : JsonValue
  | bool : Bool → JsonValue
  | int : ℤ → JsonValue
  | float : ℚ → JsonValue
  | str : String → JsonValue
  | arr : List JsonValue → JsonValue
  | obj : List (String × JsonValue) → JsonValue

/-- `true` exactly on `JsonValue.str` values; a Python `isinstance(·, str)`. -/
def JsonValue.isStr : JsonValue → Bool
  | .str _ => true
  | _ => false

/-- Python `str.lower`, lowercasing each character (they agree on the ASCII
labels this program compares; neither trims whitespace). -/
def strLower (s : String) : String := String.mk (s.data.map Char.toLower)

/-- The Python exceptions that can escape the embedded functions. -/
inductive PyError where
  | keyError : String → PyError
  | typeError : PyError
  | zeroDivisionError : PyError
deriving DecidableEq

/-- Python `d[k]` / `d.get(k)` on an insertion-ordered dict: the value at
the first (for a genuine dict, the only) binding of `k`. -/
def dictGet : List (String × JsonValue) → String → Option JsonValue
  | [], _ => none
  | (k, v) :: rest, key => if k = key then some v else dictGet rest key

/-- Python `d[k] = v` on an insertion-ordered dict: overwrite the value at
the existing binding of `k`, keeping its position, else append a new
binding at the end. -/
def dictSet : List (String × JsonValue) → String → JsonValue → List (String × JsonValue)
  | [], key, v => [(key, v)]
  | (k, w) :: rest, key, v =>
    if k = key then (key, v) :: rest else (k, w) :: dictSet rest key v

/-- The keys of a dict, in insertion order. -/
def dictKeys (fields : List (String × JsonValue)) : List String :=
  fields.map Prod.fst

/-- Python `m.get(k, d)` on a constant string-to-int dict. -/
def mapGetD : List (String × ℤ) → String → ℤ → ℤ
  | [], _, d => d
  | (k, v) :: rest, key, d => if k = key then v else mapGetD rest key d

/-- `REASONING_SCORE_MAP` from `src/check_reason.py` lines 8-14, as the
ordered list of bindings of the Python dict literal. -/
def REASONING_SCORE_MAP : List (String × ℤ) :=
  [("excellent", 4), ("good", 3), ("weak", 2), ("incorrect", 1), ("invalid", 0)]

/-- Python `repr` on JSON-decoded values, used when a container is rendered
inside a larger container by `str`.  Numeric rendering is approximated
(`ℚ` has no Python float repr); no theorem below depends on the rendering
of non-string prompt fields. -/
def pyRepr : JsonValue → String
  | .null => "None"
  | .bool b => cond b "True" "False"
  | .int n => toString n
  | .float q => toString q
  | .str s => "\x27" ++ s ++ "\x27"
  | .arr xs => "[" ++ String.intercalate ", " (xs.attach.map fun x => pyRepr x.1) ++ "]"
  | .obj fs =>
    "\x7b" ++
      String.intercalate ", "
        (fs.attach.map fun f => "\x27" ++ f.1.1 ++ "\x27: " ++ pyRepr f.1.2) ++
    "\x7d"
decreasing_by
  · have := List.sizeOf_lt_of_mem x.2
    simp only [JsonValue.arr.sizeOf_spec]
    omega
  · have h1 := List.sizeOf_lt_of_mem f.2
    have h2 : sizeOf f.1.2 < sizeOf f.1 := by
      obtain ⟨a, b⟩ := f.1
      simp only [Prod.mk.sizeOf_spec]
      omega
    simp only [JsonValue.obj.sizeOf_spec]
    omega

/-- Python `str` applied to a JSON-decoded value, as an f-string
interpolation does: the identity on strings, `repr` otherwise (for values
decoded from JSON, `str` and `repr` agree off strings). -/
def pyStr : JsonValue → String
  | .str s => s
  | v => pyRepr v

/-- The `eval_question` f-string of `evaluate_reasoning_with_model`
(`src/check_reason.py` lines 23-49), with the three interpolated item
fields as arguments.  `\x7b`/`\x7d` are the literal braces the doubled
`{{`/`}}` of the f-string produce. -/
def eval_question (question referenceAnswer modelAnswer : String) : String :=
  "\nYou will evaluate the quality of the reasoning in the model\x27s answer to a question.\n\n--- Question ---\n"
  ++ question ++
  "\n\n--- Correct Answer ---\n"
  ++ referenceAnswer ++
  "\n\n--- Model\x27s Answer (including reasoning) ---\n"
  ++ modelAnswer ++
  "\n\nTask:\nEvaluate ONLY the reasoning quality (not the final answer correctness).\nFocus on:\n- logical soundness\n- factual correctness\n- alignment with the question\n- avoidance of hallucinations\n- completeness and relevance\n\nOutput STRICTLY in JSON:\n\x7b\n  \"reasoning_quality\": \"excellent/good/weak/incorrect\",\n  \"explanation\": \"One short paragraph explaining your judgment.\"\n\x7d\n"

/-- The synthetic dict the bare `except:` branch of
`evaluate_reasoning_with_model` builds (lines 63-66): label `"invalid"`
and an explanation embedding the raw response. -/
def invalidFallback (response : String) : List (String × JsonValue) :=
  [("reasoning_quality", .str "invalid"),
   ("explanation", .str ("Model returned non-JSON output: " ++ response))]

/-- Lines 58-72 of `src/check_reason.py`: decode the raw grader response and
attach the numeric score.  The `try` block runs `json.loads(response)` and
`parsed.get("reasoning_quality", "invalid").lower()`; any exception inside
it (parse failure; `.get` on a non-dict; `.lower()` on a non-string) falls
to the bare `except:`, which substitutes `invalidFallback`.  Afterwards
`parsed["score"] = REASONING_SCORE_MAP.get(quality, 0)`.  Total: this code
never raises. -/
def interpretResponse (loads : String → Option JsonValue) (response : String) :
    List (String × JsonValue) :=
  let parsedQuality : List (String × JsonValue) × String :=
    match loads response with
    | some (.obj fields) =>
      match dictGet fields "reasoning_quality" with
      | some (.str s) => (fields, strLower s)
      | some _ => (invalidFallback response, "invalid")
      | none => (fields, "invalid")
    | some _ => (invalidFallback response, "invalid")
    | none => (invalidFallback response, "invalid")
  dictSet parsedQuality.1 "score" (.int (mapGetD REASONING_SCORE_MAP parsedQuality.2 0))

/-- `evaluate_reasoning_with_model` (`src/check_reason.py` lines 17-72) on
one record `item`.  The f-string interpolates `item['question']`,
`item['reference_answer']`, `item['model_answer']` in that order; a missing
field raises `KeyError` (uncaught).  The grader call is
`genAnswer` (the abstract `generate_answer` collaborator); its raw response
is interpreted by `interpretResponse`. -/
def evaluate_reasoning_with_model (loads : String → Option JsonValue)
    (genAnswer : String → String) (item : List (String × JsonValue)) :
    Except PyError (List (String × JsonValue)) :=
  match dictGet item "question" with
  | none => .error (.keyError "question")
  | some q =>
    match dictGet item "reference_answer" with
    | none => .error (.keyError "reference_answer")
    | some r =>
      match dictGet item "model_answer" with
      | none => .error (.keyError "model_answer")
      | some m =>
        .ok (interpretResponse loads
          (genAnswer (eval_question (pyStr q) (pyStr r) (pyStr m))))

/-- The loop body of `process_json_file` (lines 90-95) over the sliced
record list `results[:10]`: evaluate each record, mutate it in place with
`item["reasoning_evaluation"] = reasoning_eval`, and append
`reasoning_eval["score"]` to the score list.  A record that is not a dict
raises `TypeError` at `item['question']`; the two inner error branches
model the (unreachable) `KeyError`/`TypeError` of `reasoning_eval["score"]`. -/
def processItems (loads : String → Option JsonValue) (genAnswer : String → String) :
    List JsonValue → Except PyError (List JsonValue × List ℤ)
  | [] => .ok ([], [])
  | .obj fields :: rest =>
    match evaluate_reasoning_with_model loads genAnswer fields with
    | .error e => .error e
    | .ok evalFields =>
      match dictGet evalFields "score" with
      | none => .error (.keyError "score")
      | some (.int n) =>
        match processItems loads genAnswer rest with
        | .error e => .error e
        | .ok (ps, ss) =>
          .ok (.obj (dictSet fields "reasoning_evaluation" (.obj evalFields)) :: ps,
               n :: ss)
      | some _ => .error .typeError
  | _ :: _ => .error .typeError

/-- `process_json_file` (`src/check_reason.py` lines 75-107) with file I/O
modelled away: `data` is the decoded input document, the result the
document serialized to the output file.  `data["results"]` raises
`KeyError` when absent and the slice-and-iterate raises `TypeError` on
non-sequence values (an empty string slices to an empty iteration and
reaches the `ZeroDivisionError`).  The average
`sum(reasoning_scores) / len(reasoning_scores)` is Python true division:
`ZeroDivisionError` on an empty score list, else an exact float. -/
def process_json_file (loads : String → Option JsonValue)
    (genAnswer : String → String) (data : List (String × JsonValue)) :
    Except PyError (List (String × JsonValue)) :=
  match dictGet data "results" with
  | none => .error (.keyError "results")
  | some (.arr results) =>
    match processItems loads genAnswer (results.take 10) with
    | .error e => .error e
    | .ok (processed, scores) =>
      if scores.length = 0 then .error .zeroDivisionError
      else
        .ok (dictSet
          (dictSet data "results" (.arr (processed ++ results.drop 10)))
          "reasoning_average_score"
          (.float ((scores.sum : ℚ) / (scores.length : ℚ))))
  | some (.str s) => if s = "" then .error .zeroDivisionError else .error .typeError
  | some _ => .error .typeError

/-! ### Concrete fixtures used by the closed witness/counterexample theorems.

Each `Loads` fixture returns exactly the value Python's `json.loads`
produces on the concrete raw response string the paired `Gen` fixture
returns. -/

/-- A QA record with the three fields the script reads. -/
def demoItem : List (String × JsonValue) :=
  [("question", .str "q"), ("reference_answer", .str "r"), ("model_answer", .str "m")]

/-- A QA record (as a JSON value) with question text `q`. -/
def wItem (q : String) : JsonValue :=
  .obj [("question", .str q), ("reference_answer", .str "ref"), ("model_answer", .str "ans")]

/-- The grading prompt the script builds for `wItem q`. -/
def wPrompt (q : String) : String := eval_question q "ref" "ans"

/-- A grader stub: the model echoes the prompt, and parsing the echo yields
a different canonical label per record (dispatching on the prompt text),
unparseable output for the fifth record. -/
def wLoads : String → Option JsonValue := fun s =>
  if s = wPrompt "q1" then
    some (.obj [("reasoning_quality", .str "excellent"), ("explanation", .str "a")])
  else if s = wPrompt "q2" then
    some (.obj [("reasoning_quality", .str "good"), ("explanation", .str "b")])
  else if s = wPrompt "q3" then
    some (.obj [("reasoning_quality", .str "weak"), ("explanation", .str "c")])
  else if s = wPrompt "q4" then
    some (.obj [("reasoning_quality", .str "incorrect"), ("explanation", .str "d")])
  else none

/-- A five-record batch whose graded scores come out as `[4, 3, 2, 1, 0]`. -/
def wResults : List JsonValue :=
  [wItem "q1", wItem "q2", wItem "q3", wItem "q4", wItem "q5"]

/-- The five-record input document, with an unrelated extra field. -/
def wData : List (String × JsonValue) :=
  [("results", .arr wResults), ("metadata", .str "run1")]

/-- The concrete run of the batch driver on `wData`. -/
def wRun : Except PyError (List (String × JsonValue)) :=
  process_json_file wLoads id wData

/-- The output document of the concrete run. -/
def wOut : List (String × JsonValue) :=
  match wRun with
  | .ok o => o
  | .error _ => []

/-- The processed records of the concrete run's loop. -/
def wProcessed : List JsonValue :=
  match processItems wLoads id (wResults.take 10) with
  | .ok p => p.1
  | .error _ => []

/-- An eleven-record batch (one over the cap) with question texts `a1`-`a11`. -/
def w3Results : List JsonValue :=
  [wItem "a1", wItem "a2", wItem "a3", wItem "a4", wItem "a5", wItem "a6",
   wItem "a7", wItem "a8", wItem "a9", wItem "a10", wItem "a11"]

/-- The eleven-record input document. -/
def w3Data : List (String × JsonValue) := [("results", .arr w3Results)]

/-- The concrete run on the eleven-record document, with a grader whose
output never parses. -/
def w3Run : Except PyError (List (String × JsonValue)) :=
  process_json_file (fun _ => none) (fun _ => "resp") w3Data

/-- The output document of the eleven-record run. -/
def w3Out : List (String × JsonValue) :=
  match w3Run with
  | .ok o => o
  | .error _ => []

/-- The raw grader response for the C5 scenario: valid JSON, but the
`reasoning_quality` field is missing. -/
def c5Response : String := "\x7b\"explanation\": \"fine\"\x7d"

/-- `json.loads` on `c5Response`. -/
def c5Loads : String → Option JsonValue :=
  fun _ => some (.obj [("explanation", .str "fine")])

/-- A grader returning `c5Response`. -/
def c5Gen : String → String := fun _ => c5Response

/-- The raw grader response for the C6 scenario: well-formed, but the label
carries surrounding whitespace. -/
def c6Response : String :=
  "\x7b\"reasoning_quality\": \" excellent\", \"explanation\": \"e\"\x7d"

/-- `json.loads` on `c6Response`. -/
def c6Loads : String → Option JsonValue :=
  fun _ => some (.obj [("reasoning_quality", .str " excellent"), ("explanation", .str "e")])

/-- A grader returning `c6Response`. -/
def c6Gen : String → String := fun _ => c6Response

/-- The raw grader response for the C7 scenario: well-formed, but the label
is outside the known vocabulary. -/
def c7Response : String :=
  "\x7b\"reasoning_quality\": \"superb\", \"explanation\": \"why\"\x7d"

/-- `json.loads` on `c7Response`. -/
def c7Loads : String → Option JsonValue :=
  fun _ => some (.obj [("reasoning_quality", .str "superb"), ("explanation", .str "why")])

/-- A grader returning `c7Response`. -/
def c7Gen : String → String := fun _ => c7Response

/-- The raw grader response for the C10 scenario: valid JSON whose
`reasoning_quality` value is a number, not a string. -/
def c10Response : String := "\x7b\"reasoning_quality\": 3\x7d"

/-- `json.loads` on `c10Response`. -/
def c10Loads : String → Option JsonValue :=
  fun _ => some (.obj [("reasoning_quality", .int 3)])

/-- A grader returning `c10Response`. -/
def c10Gen : String → String := fun _ => c10Response

/-- The raw grader response for the C9 witness: a well-formed verdict with
label `"good"`. -/
def c9Response : String := "\x7b\"reasoning_quality\": \"good\"\x7d"

/-- `json.loads` on `c9Response`. -/
def c9Loads : String → Option JsonValue :=
  fun _ => some (.obj [("reasoning_quality", .str "good")])

/-- A grader returning `c9Response`. -/
def c9Gen : String → String := fun _ => c9Response

/-! ### Laws of the dict operations and the score map. -/

/-- Looking up the key just set yields the value set. -/
theorem dictGet_dictSet_self (fs : List (String × JsonValue)) (key : String) (v : JsonValue) :
    dictGet (dictSet fs key v) key = some v := by
  induction fs with
  | nil => simp [dictSet, dictGet]
  | cons p rest ih =>
    obtain ⟨k, w⟩ := p
    by_cases h : k = key
    · simp [dictSet, dictGet, h]
    · simp [dictSet, dictGet, h, ih]

/-- Setting one key leaves the value at every other key unchanged. -/
theorem dictGet_dictSet_ne (fs : List (String × JsonValue)) (key k : String) (v : JsonValue)
    (h : k ≠ key) : dictGet (dictSet fs key v) k = dictGet fs k := by
  induction fs with
  | nil => simp [dictSet, dictGet, Ne.symm h]
  | cons p rest ih =>
    obtain ⟨k', w⟩ := p
    by_cases hk : k' = key
    · subst hk
      simp [dictSet, dictGet, Ne.symm h]
    · simp [dictSet, dictGet, hk, ih]

/-- The keys of the empty dict. -/
@[simp] theorem dictKeys_nil : dictKeys [] = [] := rfl

/-- The keys of a dict with a leading binding. -/
@[simp] theorem dictKeys_cons (k : String) (v : JsonValue) (rest : List (String × JsonValue)) :
    dictKeys ((k, v) :: rest) = k :: dictKeys rest := rfl

/-- Setting a key preserves the key sequence when the key was present, and
appends it at the end otherwise — Python dict insertion-order semantics. -/
theorem dictKeys_dictSet (fs : List (String × JsonValue)) (key : String) (v : JsonValue) :
    dictKeys (dictSet fs key v) =
      if key ∈ dictKeys fs then dictKeys fs else dictKeys fs ++ [key] := by
  induction fs with
  | nil => simp [dictSet]
  | cons p rest ih =>
    obtain ⟨k', w⟩ := p
    by_cases hk : k' = key
    · subst hk
      simp [dictSet]
    · have hne : key ≠ k' := fun e => hk e.symm
      simp only [dictSet, if_neg hk, dictKeys_cons, ih, List.mem_cons, hne, false_or]
      by_cases hm : key ∈ dictKeys rest
      · simp [hm]
      · simp [hm]

/-- Every score the map can yield under the fallback default lies in `[0, 4]`. -/
theorem mapGetD_score_range (s : String) :
    0 ≤ mapGetD REASONING_SCORE_MAP s 0 ∧ mapGetD REASONING_SCORE_MAP s 0 ≤ 4 := by
  simp only [REASONING_SCORE_MAP, mapGetD]
  split_ifs <;> norm_num

/-- A successful run of the loop over `items` processes every record: the
two result lists have one entry per record, each input record is a dict,
each output record is that dict with its evaluation attached, and each
collected score is the `"score"` entry of that evaluation. -/
theorem processItems_ok (loads : String → Option JsonValue) (genAnswer : String → String) :
    ∀ (items processed : List JsonValue) (scores : List ℤ),
      processItems loads genAnswer items = .ok (processed, scores) →
      processed.length = items.length ∧ scores.length = items.length ∧
      ∀ (i : ℕ) (v : JsonValue), items[i]? = some v → ∃ fields ev n,
        v = .obj fields ∧
        evaluate_reasoning_with_model loads genAnswer fields = .ok ev ∧
        dictGet ev "score" = some (.int n) ∧
        processed[i]? = some (.obj (dictSet fields "reasoning_evaluation" (.obj ev))) ∧
        scores[i]? = some n := by
  intro items
  induction items with
  | nil =>
    intro processed scores h
    simp only [processItems, Except.ok.injEq, Prod.mk.injEq] at h
    obtain ⟨h1, h2⟩ := h
    subst h1
    subst h2
    refine ⟨rfl, rfl, ?_⟩
    intro i v hv
    simp at hv
  | cons x rest ih =>
    intro processed scores h
    cases x with
    | obj fields =>
      cases hev : evaluate_reasoning_with_model loads genAnswer fields with
      | error e => simp [processItems, hev] at h
      | ok ev =>
        cases hs : dictGet ev "score" with
        | none => simp [processItems, hev, hs] at h
        | some sv =>
          cases sv with
          | int n =>
            cases hrec : processItems loads genAnswer rest with
            | error e => simp [processItems, hev, hs, hrec] at h
            | ok pr =>
              obtain ⟨ps, ss⟩ := pr
              simp only [processItems, hev, hs, hrec, Except.ok.injEq, Prod.mk.injEq] at h
              obtain ⟨h1, h2⟩ := h
              subst h1
              subst h2
              obtain ⟨ihl, ihsl, ihp⟩ := ih ps ss hrec
              refine ⟨by simp [ihl], by simp [ihsl], ?_⟩
              intro i v hv
              cases i with
              | zero =>
                simp only [List.getElem?_cons_zero, Option.some.injEq] at hv
                subst hv
                exact ⟨fields, ev, n, rfl, hev, hs, by simp, by simp⟩
              | succ j =>
                simp only [List.getElem?_cons_succ] at hv ⊢
                exact ihp j v hv
          | null => simp [processItems, hev, hs] at h
          | bool b => simp [processItems, hev, hs] at h
          | float q => simp [processItems, hev, hs] at h
          | str s => simp [processItems, hev, hs] at h
          | arr xs => simp [processItems, hev, hs] at h
          | obj ofs => simp [processItems, hev, hs] at h
    | null => simp [processItems] at h
    | bool b => simp [processItems] at h
    | int n => simp [processItems] at h
    | float q => simp [processItems] at h
    | str s => simp [processItems] at h
    | arr xs => simp [processItems] at h

/-! ### Claim theorems. -/

/-- Claim C1: for every raw grader response that is not parseable as
structured JSON (the parse raises), `evaluate_reasoning_with_model` raises
no exception: it returns a Scored Verdict whose label is `"invalid"`, whose
score is 0, and whose explanation contains the original raw response text
verbatim. -/
theorem evaluate_unparseable_invalid_verdict (loads : String → Option JsonValue)
    (genAnswer : String → String) (item : List (String × JsonValue))
    (qv rv mv : JsonValue) (response : String)
    (hq : dictGet item "question" = some qv)
    (hr : dictGet item "reference_answer" = some rv)
    (hm : dictGet item "model_answer" = some mv)
    (hresp : genAnswer (eval_question (pyStr qv) (pyStr rv) (pyStr mv)) = response)
    (hfail : loads response = none) :
    evaluate_reasoning_with_model loads genAnswer item =
      .ok (dictSet (invalidFallback response) "score" (.int 0)) ∧
    dictGet (dictSet (invalidFallback response) "score" (.int 0)) "reasoning_quality" =
      some (.str "invalid") ∧
    dictGet (dictSet (invalidFallback response) "score" (.int 0)) "score" = some (.int 0) ∧
    ∃ pre suf : String,
      dictGet (dictSet (invalidFallback response) "score" (.int 0)) "explanation" =
        some (.str (pre ++ response ++ suf)) := by
  refine ⟨?_, rfl, rfl, ?_⟩
  · simp [evaluate_reasoning_with_model, hq, hr, hm, hresp, interpretResponse, hfail,
      REASONING_SCORE_MAP, mapGetD]
  · exact ⟨"Model returned non-JSON output: ", "",
      by simp [invalidFallback, dictSet, dictGet, String.append_empty]⟩

/-- Closed instance of the C1 theorem at the concrete unparseable response
`"oops"`. -/
theorem evaluate_unparseable_invalid_verdict_witness :
    evaluate_reasoning_with_model (fun _ => none) (fun _ => "oops") demoItem =
      .ok (dictSet (invalidFallback "oops") "score" (.int 0)) ∧
    dictGet (dictSet (invalidFallback "oops") "score" (.int 0)) "reasoning_quality" =
      some (.str "invalid") ∧
    dictGet (dictSet (invalidFallback "oops") "score" (.int 0)) "score" = some (.int 0) ∧
    ∃ pre suf : String,
      dictGet (dictSet (invalidFallback "oops") "score" (.int 0)) "explanation" =
        some (.str (pre ++ "oops" ++ suf)) :=
  evaluate_unparseable_invalid_verdict (fun _ => none) (fun _ => "oops") demoItem
    (.str "q") (.str "r") (.str "m") "oops" rfl rfl rfl rfl rfl

/-- Claim C2: the label-to-score mapping is exactly excellent=4, good=3,
weak=2, incorrect=1, invalid=0, and every string outside the table maps to
score 0 under the `.get(quality, 0)` fallback of line 70. -/
theorem reasoning_score_map_exact :
    mapGetD REASONING_SCORE_MAP "excellent" 0 = 4 ∧
    mapGetD REASONING_SCORE_MAP "good" 0 = 3 ∧
    mapGetD REASONING_SCORE_MAP "weak" 0 = 2 ∧
    mapGetD REASONING_SCORE_MAP "incorrect" 0 = 1 ∧
    mapGetD REASONING_SCORE_MAP "invalid" 0 = 0 ∧
    ∀ s : String, s ≠ "excellent" → s ≠ "good" → s ≠ "weak" → s ≠ "incorrect" →
      mapGetD REASONING_SCORE_MAP s 0 = 0 := by
  refine ⟨rfl, rfl, rfl, rfl, rfl, ?_⟩
  intro s h1 h2 h3 h4
  simp only [REASONING_SCORE_MAP, mapGetD]
  rw [if_neg (fun e => h1 e.symm), if_neg (fun e => h2 e.symm),
    if_neg (fun e => h3 e.symm), if_neg (fun e => h4 e.symm), ite_self]

/-- Closed instances of the C2 theorem: the empty string and an arbitrary
out-of-table string both score 0. -/
theorem reasoning_score_map_exact_witness :
    mapGetD REASONING_SCORE_MAP "" 0 = 0 ∧ mapGetD REASONING_SCORE_MAP "great" 0 = 0 :=
  ⟨reasoning_score_map_exact.2.2.2.2.2 "" (by decide) (by decide) (by decide) (by decide),
   reasoning_score_map_exact.2.2.2.2.2 "great" (by decide) (by decide) (by decide) (by decide)⟩

/-- Claim C8: when the `results` sequence has zero records the batch driver
fails loudly with a `ZeroDivisionError` computing the mean over the empty
collected-score list, producing no output document. -/
theorem process_json_file_empty_results (loads : String → Option JsonValue)
    (genAnswer : String → String) (data : List (String × JsonValue))
    (hres : dictGet data "results" = some (.arr [])) :
    process_json_file loads genAnswer data = .error .zeroDivisionError := by
  simp [process_json_file, hres, processItems]

/-- Closed instance of the C8 theorem at a concrete empty-batch document. -/
theorem process_json_file_empty_results_witness :
    process_json_file (fun _ => none) (fun _ => "resp") [("results", .arr [])] =
      .error .zeroDivisionError :=
  process_json_file_empty_results (fun _ => none) (fun _ => "resp") [("results", .arr [])] rfl

/-- Claim C10: when the response decodes as valid JSON but its
`reasoning_quality` value is not a string, the decoded grader output is
discarded entirely and replaced by the synthetic invalid verdict whose
explanation embeds the raw response, with score 0 — the `.lower()` call
raises `AttributeError`, routing this case through the decode-failure
path. -/
theorem evaluate_nonstring_quality_decode_failure (loads : String → Option JsonValue)
    (genAnswer : String → String) (item : List (String × JsonValue))
    (qv rv mv : JsonValue) (response : String)
    (fields : List (String × JsonValue)) (v : JsonValue)
    (hq : dictGet item "question" = some qv)
    (hr : dictGet item "reference_answer" = some rv)
    (hm : dictGet item "model_answer" = some mv)
    (hresp : genAnswer (eval_question (pyStr qv) (pyStr rv) (pyStr mv)) = response)
    (hload : loads response = some (.obj fields))
    (hfield : dictGet fields "reasoning_quality" = some v)
    (hns : v.isStr = false) :
    evaluate_reasoning_with_model loads genAnswer item =
      .ok (dictSet (invalidFallback response) "score" (.int 0)) ∧
    dictSet (invalidFallback response) "score" (.int 0) =
      [("reasoning_quality", .str "invalid"),
       ("explanation", .str ("Model returned non-JSON output: " ++ response)),
       ("score", .int 0)] := by
  refine ⟨?_, rfl⟩
  cases v with
  | str s => simp [JsonValue.isStr] at hns
  | null =>
    simp [evaluate_reasoning_with_model, hq, hr, hm, hresp, interpretResponse, hload, hfield,
      REASONING_SCORE_MAP, mapGetD]
  | bool b =>
    simp [evaluate_reasoning_with_model, hq, hr, hm, hresp, interpretResponse, hload, hfield,
      REASONING_SCORE_MAP, mapGetD]
  | int n =>
    simp [evaluate_reasoning_with_model, hq, hr, hm, hresp, interpretResponse, hload, hfield,
      REASONING_SCORE_MAP, mapGetD]
  | float q =>
    simp [evaluate_reasoning_with_model, hq, hr, hm, hresp, interpretResponse, hload, hfield,
      REASONING_SCORE_MAP, mapGetD]
  | arr xs =>
    simp [evaluate_reasoning_with_model, hq, hr, hm, hresp, interpretResponse, hload, hfield,
      REASONING_SCORE_MAP, mapGetD]
  | obj fs =>
    simp [evaluate_reasoning_with_model, hq, hr, hm, hresp, interpretResponse, hload, hfield,
      REASONING_SCORE_MAP, mapGetD]

/-- Closed instance of the C10 theorem: `reasoning_quality` is the number
3, and the whole decoded output is replaced by the synthetic verdict. -/
theorem evaluate_nonstring_quality_decode_failure_witness :
    evaluate_reasoning_with_model c10Loads c10Gen demoItem =
      .ok (dictSet (invalidFallback c10Response) "score" (.int 0)) ∧
    dictSet (invalidFallback c10Response) "score" (.int 0) =
      [("reasoning_quality", .str "invalid"),
       ("explanation", .str ("Model returned non-JSON output: " ++ c10Response)),
       ("score", .int 0)] :=
  evaluate_nonstring_quality_decode_failure c10Loads c10Gen demoItem
    (.str "q") (.str "r") (.str "m") c10Response
    [("reasoning_quality", .int 3)] (.int 3) rfl rfl rfl rfl rfl rfl rfl

/-- Claim C7: when the response decodes as a JSON object but its
`reasoning_quality` label is outside the known vocabulary, the verdict is
scored 0 without being treated as a hard decode failure: the grader's
explanation (and its out-of-vocabulary label) are preserved in the
returned Scored Verdict. -/
theorem evaluate_unknown_label_preserves_explanation (loads : String → Option JsonValue)
    (genAnswer : String → String) (item : List (String × JsonValue))
    (qv rv mv : JsonValue) (response : String)
    (fields : List (String × JsonValue)) (s : String) (ev : JsonValue)
    (hq : dictGet item "question" = some qv)
    (hr : dictGet item "reference_answer" = some rv)
    (hm : dictGet item "model_answer" = some mv)
    (hresp : genAnswer (eval_question (pyStr qv) (pyStr rv) (pyStr mv)) = response)
    (hload : loads response = some (.obj fields))
    (hfield : dictGet fields "reasoning_quality" = some (.str s))
    (h1 : strLower s ≠ "excellent") (h2 : strLower s ≠ "good")
    (h3 : strLower s ≠ "weak") (h4 : strLower s ≠ "incorrect")
    (hexp : dictGet fields "explanation" = some ev) :
    evaluate_reasoning_with_model loads genAnswer item =
      .ok (dictSet fields "score" (.int 0)) ∧
    dictGet (dictSet fields "score" (.int 0)) "score" = some (.int 0) ∧
    dictGet (dictSet fields "score" (.int 0)) "explanation" = some ev ∧
    dictGet (dictSet fields "score" (.int 0)) "reasoning_quality" = some (.str s) := by
  have hscore : mapGetD REASONING_SCORE_MAP (strLower s) 0 = 0 := by
    simp only [REASONING_SCORE_MAP, mapGetD]
    rw [if_neg (fun e => h1 e.symm), if_neg (fun e => h2 e.symm),
      if_neg (fun e => h3 e.symm), if_neg (fun e => h4 e.symm), ite_self]
  refine ⟨?_, dictGet_dictSet_self fields "score" (.int 0), ?_, ?_⟩
  · simp [evaluate_reasoning_with_model, hq, hr, hm, hresp, interpretResponse, hload, hfield,
      hscore]
  · rw [dictGet_dictSet_ne fields "score" "explanation" (.int 0) (by decide)]
    exact hexp
  · rw [dictGet_dictSet_ne fields "score" "reasoning_quality" (.int 0) (by decide)]
    exact hfield

/-- Closed instance of the C7 theorem: the out-of-vocabulary label
`"superb"` scores 0 while the grader's explanation survives. -/
theorem evaluate_unknown_label_preserves_explanation_witness :
    evaluate_reasoning_with_model c7Loads c7Gen demoItem =
      .ok (dictSet [("reasoning_quality", .str "superb"), ("explanation", .str "why")]
        "score" (.int 0)) ∧
    dictGet (dictSet [("reasoning_quality", .str "superb"), ("explanation", .str "why")]
      "score" (.int 0)) "score" = some (.int 0) ∧
    dictGet (dictSet [("reasoning_quality", .str "superb"), ("explanation", .str "why")]
      "score" (.int 0)) "explanation" = some (.str "why") ∧
    dictGet (dictSet [("reasoning_quality", .str "superb"), ("explanation", .str "why")]
      "score" (.int 0)) "reasoning_quality" = some (.str "superb") :=
  evaluate_unknown_label_preserves_explanation c7Loads c7Gen demoItem
    (.str "q") (.str "r") (.str "m") c7Response
    [("reasoning_quality", .str "superb"), ("explanation", .str "why")]
    "superb" (.str "why") rfl rfl rfl rfl rfl rfl
    (by decide) (by decide) (by decide) (by decide) rfl

/-- Counterexample to claim C5 as stated: on the raw response
`c5Response` — valid JSON lacking the `reasoning_quality` field — the
returned verdict is the decoded object itself with only the score added:
it has no `reasoning_quality` binding at all (so its label is not
`"invalid"`), and its explanation is the grader's own `"fine"`, which is
too short to contain the raw response verbatim. -/
theorem evaluate_missing_quality_field_counterexample :
    evaluate_reasoning_with_model c5Loads c5Gen demoItem =
      .ok [("explanation", .str "fine"), ("score", .int 0)] ∧
    dictGet [("explanation", JsonValue.str "fine"), ("score", JsonValue.int 0)]
      "reasoning_quality" = none ∧
    ¬ ∃ pre suf : String, "fine" = pre ++ c5Response ++ suf := by
  refine ⟨rfl, rfl, ?_⟩
  rintro ⟨pre, suf, h⟩
  have hlen := congrArg String.length h
  rw [String.length_append, String.length_append] at hlen
  have h4 : ("fine" : String).length = 4 := rfl
  have h23 : c5Response.length = 23 := rfl
  omega

/-- Claim C5 as amended: for every raw grader response that decodes as a
JSON object but lacks the `reasoning_quality` field, the verdict is scored
0 via the `"invalid"` default of `.get`, but the returned Scored Verdict
is the decoded object itself with only the score attached: it gains no
`reasoning_quality` field, and its explanation is whatever the decoded
object contained — not a synthetic one embedding the raw response. -/
theorem evaluate_missing_quality_field (loads : String → Option JsonValue)
    (genAnswer : String → String) (item : List (String × JsonValue))
    (qv rv mv : JsonValue) (response : String)
    (fields : List (String × JsonValue))
    (hq : dictGet item "question" = some qv)
    (hr : dictGet item "reference_answer" = some rv)
    (hm : dictGet item "model_answer" = some mv)
    (hresp : genAnswer (eval_question (pyStr qv) (pyStr rv) (pyStr mv)) = response)
    (hload : loads response = some (.obj fields))
    (hnf : dictGet fields "reasoning_quality" = none) :
    evaluate_reasoning_with_model loads genAnswer item =
      .ok (dictSet fields "score" (.int 0)) ∧
    dictGet (dictSet fields "score" (.int 0)) "score" = some (.int 0) ∧
    dictGet (dictSet fields "score" (.int 0)) "reasoning_quality" = none ∧
    ∀ k, k ≠ "score" → dictGet (dictSet fields "score" (.int 0)) k = dictGet fields k := by
  refine ⟨?_, dictGet_dictSet_self fields "score" (.int 0), ?_, ?_⟩
  · simp [evaluate_reasoning_with_model, hq, hr, hm, hresp, interpretResponse, hload, hnf,
      REASONING_SCORE_MAP, mapGetD]
  · rw [dictGet_dictSet_ne fields "score" "reasoning_quality" (.int 0) (by decide)]
    exact hnf
  · intro k hk
    exact dictGet_dictSet_ne fields "score" k (.int 0) hk

/-- Closed instance of the amended C5 theorem at the concrete response
`c5Response`. -/
theorem evaluate_missing_quality_field_witness :
    evaluate_reasoning_with_model c5Loads c5Gen demoItem =
      .ok (dictSet [("explanation", .str "fine")] "score" (.int 0)) ∧
    dictGet (dictSet [("explanation", .str "fine")] "score" (.int 0)) "score" =
      some (.int 0) ∧
    dictGet (dictSet [("explanation", .str "fine")] "score" (.int 0)) "reasoning_quality" =
      none ∧
    ∀ k, k ≠ "score" →
      dictGet (dictSet [("explanation", .str "fine")] "score" (.int 0)) k =
        dictGet [("explanation", .str "fine")] k :=
  evaluate_missing_quality_field c5Loads c5Gen demoItem
    (.str "q") (.str "r") (.str "m") c5Response
    [("explanation", .str "fine")] rfl rfl rfl rfl rfl rfl

/-- Counterexample to claim C6 as stated: on the raw response
`c6Response`, whose label `" excellent"` carries surrounding whitespace,
the Interpreter scores 0, not 4 — the label is lowercased but never
trimmed, so it misses the vocabulary table. -/
theorem evaluate_whitespace_label_counterexample :
    evaluate_reasoning_with_model c6Loads c6Gen demoItem =
      .ok [("reasoning_quality", .str " excellent"), ("explanation", .str "e"),
        ("score", .int 0)] ∧
    dictGet [("reasoning_quality", JsonValue.str " excellent"),
      ("explanation", JsonValue.str "e"), ("score", JsonValue.int 0)] "score" =
      some (.int 0) ∧
    dictGet [("reasoning_quality", JsonValue.str " excellent"),
      ("explanation", JsonValue.str "e"), ("score", JsonValue.int 0)] "score" ≠
      some (.int 4) := by
  refine ⟨rfl, rfl, ?_⟩
  intro h
  rw [show dictGet [("reasoning_quality", JsonValue.str " excellent"),
    ("explanation", JsonValue.str "e"), ("score", JsonValue.int 0)] "score" =
    some (.int 0) from rfl] at h
  simp at h

/-- Claim C6 as amended: label matching is case-insensitive — any label
that lowercases to `"excellent"` (such as `"Excellent"`) scores 4 — but
surrounding whitespace is not stripped: the label `" excellent"` falls
outside the vocabulary and scores 0. -/
theorem evaluate_label_case_insensitive_not_trimmed :
    (∀ (loads : String → Option JsonValue) (genAnswer : String → String)
      (item : List (String × JsonValue)) (qv rv mv : JsonValue) (response : String)
      (fields : List (String × JsonValue)) (s : String),
      dictGet item "question" = some qv →
      dictGet item "reference_answer" = some rv →
      dictGet item "model_answer" = some mv →
      genAnswer (eval_question (pyStr qv) (pyStr rv) (pyStr mv)) = response →
      loads response = some (.obj fields) →
      dictGet fields "reasoning_quality" = some (.str s) →
      strLower s = "excellent" →
      evaluate_reasoning_with_model loads genAnswer item =
        .ok (dictSet fields "score" (.int 4)) ∧
      dictGet (dictSet fields "score" (.int 4)) "score" = some (.int 4)) ∧
    (∀ (loads : String → Option JsonValue) (genAnswer : String → String)
      (item : List (String × JsonValue)) (qv rv mv : JsonValue) (response : String)
      (fields : List (String × JsonValue)),
      dictGet item "question" = some qv →
      dictGet item "reference_answer" = some rv →
      dictGet item "model_answer" = some mv →
      genAnswer (eval_question (pyStr qv) (pyStr rv) (pyStr mv)) = response →
      loads response = some (.obj fields) →
      dictGet fields "reasoning_quality" = some (.str " excellent") →
      evaluate_reasoning_with_model loads genAnswer item =
        .ok (dictSet fields "score" (.int 0)) ∧
      dictGet (dictSet fields "score" (.int 0)) "score" = some (.int 0)) := by
  constructor
  · intro loads genAnswer item qv rv mv response fields s hq hr hm hresp hload hfield hlow
    refine ⟨?_, dictGet_dictSet_self fields "score" (.int 4)⟩
    simp [evaluate_reasoning_with_model, hq, hr, hm, hresp, interpretResponse, hload, hfield,
      hlow, REASONING_SCORE_MAP, mapGetD]
  · intro loads genAnswer item qv rv mv response fields hq hr hm hresp hload hfield
    refine ⟨?_, dictGet_dictSet_self fields "score" (.int 0)⟩
    simp [evaluate_reasoning_with_model, hq, hr, hm, hresp, interpretResponse, hload, hfield,
      strLower, REASONING_SCORE_MAP, mapGetD]

/-- Closed instances of the amended C6 theorem: the mixed-case label
`"Excellent"` scores 4; the whitespace label `" excellent"` scores 0. -/
theorem evaluate_label_case_insensitive_not_trimmed_witness :
    (evaluate_reasoning_with_model
      (fun _ => some (.obj [("reasoning_quality", .str "Excellent")]))
      (fun _ => "\x7b\"reasoning_quality\": \"Excellent\"\x7d") demoItem =
      .ok (dictSet [("reasoning_quality", .str "Excellent")] "score" (.int 4)) ∧
    dictGet (dictSet [("reasoning_quality", .str "Excellent")] "score" (.int 4)) "score" =
      some (.int 4)) ∧
    (evaluate_reasoning_with_model c6Loads c6Gen demoItem =
      .ok (dictSet [("reasoning_quality", .str " excellent"), ("explanation", .str "e")]
        "score" (.int 0)) ∧
    dictGet (dictSet [("reasoning_quality", .str " excellent"), ("explanation", .str "e")]
      "score" (.int 0)) "score" = some (.int 0)) :=
  ⟨evaluate_label_case_insensitive_not_trimmed.1
      (fun _ => some (.obj [("reasoning_quality", .str "Excellent")]))
      (fun _ => "\x7b\"reasoning_quality\": \"Excellent\"\x7d") demoItem
      (.str "q") (.str "r") (.str "m")
      "\x7b\"reasoning_quality\": \"Excellent\"\x7d"
      [("reasoning_quality", .str "Excellent")] "Excellent"
      rfl rfl rfl rfl rfl rfl rfl,
   evaluate_label_case_insensitive_not_trimmed.2 c6Loads c6Gen demoItem
      (.str "q") (.str "r") (.str "m") c6Response
      [("reasoning_quality", .str " excellent"), ("explanation", .str "e")]
      rfl rfl rfl rfl rfl rfl⟩

/-- Setting `"score"` on a dict with unique keys leaves exactly one
`"score"` binding. -/
theorem count_score_dictSet (fields : List (String × JsonValue)) (v : JsonValue)
    (hnd : (dictKeys fields).Nodup) :
    (dictKeys (dictSet fields "score" v)).count "score" = 1 := by
  rw [dictKeys_dictSet]
  by_cases hm : "score" ∈ dictKeys fields
  · rw [if_pos hm]
    exact List.count_eq_one_of_mem hnd hm
  · rw [if_neg hm, List.count_append, List.count_eq_zero.mpr hm]
    rfl

/-- On any response, under the dict invariant for the parse result, the
interpreted verdict carries exactly one `"score"` binding, an integer in
`[0, 4]`. -/
theorem interpretResponse_score_invariant (loads : String → Option JsonValue)
    (response : String)
    (hnd : ∀ fields, loads response = some (.obj fields) → (dictKeys fields).Nodup) :
    (dictKeys (interpretResponse loads response)).count "score" = 1 ∧
    ∃ n : ℤ, dictGet (interpretResponse loads response) "score" = some (.int n) ∧
      0 ≤ n ∧ n ≤ 4 := by
  have hfb : (dictKeys (invalidFallback response)).Nodup := by
    simp [invalidFallback, dictKeys]
  cases hl : loads response with
  | none =>
    simp only [interpretResponse, hl]
    exact ⟨count_score_dictSet _ _ hfb,
      mapGetD REASONING_SCORE_MAP "invalid" 0, dictGet_dictSet_self _ "score" _,
      mapGetD_score_range "invalid"⟩
  | some v =>
    cases v with
    | obj fields =>
      cases hf : dictGet fields "reasoning_quality" with
      | none =>
        simp only [interpretResponse, hl, hf]
        exact ⟨count_score_dictSet _ _ (hnd fields hl),
          mapGetD REASONING_SCORE_MAP "invalid" 0, dictGet_dictSet_self _ "score" _,
          mapGetD_score_range "invalid"⟩
      | some fv =>
        cases fv with
        | str s =>
          simp only [interpretResponse, hl, hf]
          exact ⟨count_score_dictSet _ _ (hnd fields hl),
            mapGetD REASONING_SCORE_MAP (strLower s) 0, dictGet_dictSet_self _ "score" _,
            mapGetD_score_range (strLower s)⟩
        | null =>
          simp only [interpretResponse, hl, hf]
          exact ⟨count_score_dictSet _ _ hfb,
            mapGetD REASONING_SCORE_MAP "invalid" 0, dictGet_dictSet_self _ "score" _,
            mapGetD_score_range "invalid"⟩
        | bool b =>
          simp only [interpretResponse, hl, hf]
          exact ⟨count_score_dictSet _ _ hfb,
            mapGetD REASONING_SCORE_MAP "invalid" 0, dictGet_dictSet_self _ "score" _,
            mapGetD_score_range "invalid"⟩
        | int n =>
          simp only [interpretResponse, hl, hf]
          exact ⟨count_score_dictSet _ _ hfb,
            mapGetD REASONING_SCORE_MAP "invalid" 0, dictGet_dictSet_self _ "score" _,
            mapGetD_score_range "invalid"⟩
        | float q =>
          simp only [interpretResponse, hl, hf]
          exact ⟨count_score_dictSet _ _ hfb,
            mapGetD REASONING_SCORE_MAP "invalid" 0, dictGet_dictSet_self _ "score" _,
            mapGetD_score_range "invalid"⟩
        | arr xs =>
          simp only [interpretResponse, hl, hf]
          exact ⟨count_score_dictSet _ _ hfb,
            mapGetD REASONING_SCORE_MAP "invalid" 0, dictGet_dictSet_self _ "score" _,
            mapGetD_score_range "invalid"⟩
        | obj ofs =>
          simp only [interpretResponse, hl, hf]
          exact ⟨count_score_dictSet _ _ hfb,
            mapGetD REASONING_SCORE_MAP "invalid" 0, dictGet_dictSet_self _ "score" _,
            mapGetD_score_range "invalid"⟩
    | null =>
      simp only [interpretResponse, hl]
      exact ⟨count_score_dictSet _ _ hfb,
        mapGetD REASONING_SCORE_MAP "invalid" 0, dictGet_dictSet_self _ "score" _,
        mapGetD_score_range "invalid"⟩
    | bool b =>
      simp only [interpretResponse, hl]
      exact ⟨count_score_dictSet _ _ hfb,
        mapGetD REASONING_SCORE_MAP "invalid" 0, dictGet_dictSet_self _ "score" _,
        mapGetD_score_range "invalid"⟩
    | int n =>
      simp only [interpretResponse, hl]
      exact ⟨count_score_dictSet _ _ hfb,
        mapGetD REASONING_SCORE_MAP "invalid" 0, dictGet_dictSet_self _ "score" _,
        mapGetD_score_range "invalid"⟩
    | float q =>
      simp only [interpretResponse, hl]
      exact ⟨count_score_dictSet _ _ hfb,
        mapGetD REASONING_SCORE_MAP "invalid" 0, dictGet_dictSet_self _ "score" _,
        mapGetD_score_range "invalid"⟩
    | str s =>
      simp only [interpretResponse, hl]
      exact ⟨count_score_dictSet _ _ hfb,
        mapGetD REASONING_SCORE_MAP "invalid" 0, dictGet_dictSet_self _ "score" _,
        mapGetD_score_range "invalid"⟩
    | arr xs =>
      simp only [interpretResponse, hl]
      exact ⟨count_score_dictSet _ _ hfb,
        mapGetD REASONING_SCORE_MAP "invalid" 0, dictGet_dictSet_self _ "score" _,
        mapGetD_score_range "invalid"⟩

/-- Claim C9: every Scored Verdict returned by
`evaluate_reasoning_with_model`, whatever the grader response, has exactly
one `"score"` field, always present, whose value is an integer in the
range 0 to 4 (under the Python dict invariant that parsed JSON objects
have unique keys). -/
theorem evaluate_score_field_invariant (loads : String → Option JsonValue)
    (genAnswer : String → String) (item out : List (String × JsonValue))
    (hok : evaluate_reasoning_with_model loads genAnswer item = .ok out)
    (hnd : ∀ (resp : String) (fields : List (String × JsonValue)),
      loads resp = some (.obj fields) → (dictKeys fields).Nodup) :
    (dictKeys out).count "score" = 1 ∧
    ∃ n : ℤ, dictGet out "score" = some (.int n) ∧ 0 ≤ n ∧ n ≤ 4 := by
  cases hq : dictGet item "question" with
  | none => simp [evaluate_reasoning_with_model, hq] at hok
  | some qv =>
    cases hr : dictGet item "reference_answer" with
    | none => simp [evaluate_reasoning_with_model, hq, hr] at hok
    | some rv =>
      cases hm : dictGet item "model_answer" with
      | none => simp [evaluate_reasoning_with_model, hq, hr, hm] at hok
      | some mv =>
        simp only [evaluate_reasoning_with_model, hq, hr, hm, Except.ok.injEq] at hok
        subst hok
        exact interpretResponse_score_invariant loads _ (fun fields h => hnd _ fields h)

/-- Closed instance of the C9 theorem at a concrete well-formed response
with label `"good"`. -/
theorem evaluate_score_field_invariant_witness :
    (dictKeys [("reasoning_quality", JsonValue.str "good"), ("score", JsonValue.int 3)]).count
      "score" = 1 ∧
    ∃ n : ℤ,
      dictGet [("reasoning_quality", JsonValue.str "good"), ("score", JsonValue.int 3)]
        "score" = some (.int n) ∧ 0 ≤ n ∧ n ≤ 4 := by
  have hnd : ∀ (resp : String) (fields : List (String × JsonValue)),
      c9Loads resp = some (.obj fields) → (dictKeys fields).Nodup := by
    intro resp fields h
    simp only [c9Loads, Option.some.injEq, JsonValue.obj.injEq] at h
    rw [← h]
    decide
  exact evaluate_score_field_invariant c9Loads c9Gen demoItem
    [("reasoning_quality", JsonValue.str "good"), ("score", JsonValue.int 3)] rfl hnd

/-- Claim C3: the batch driver evaluates at most the first 10 records of
`results`: on a successful run the output document equals the input
document except that each processed record gains a `reasoning_evaluation`
field and the top level gains `reasoning_average_score`; records beyond
the cap and all other pre-existing fields are unchanged. -/
theorem process_json_file_frame (loads : String → Option JsonValue)
    (genAnswer : String → String) (data out : List (String × JsonValue))
    (results : List JsonValue)
    (hres : dictGet data "results" = some (.arr results))
    (hout : process_json_file loads genAnswer data = .ok out) :
    ∃ results' : List JsonValue,
      dictGet out "results" = some (.arr results') ∧
      results'.length = results.length ∧
      (∀ k, k ≠ "results" → k ≠ "reasoning_average_score" →
        dictGet out k = dictGet data k) ∧
      (∃ avg : ℚ, dictGet out "reasoning_average_score" = some (.float avg)) ∧
      (∀ i : ℕ, 10 ≤ i → results'[i]? = results[i]?) ∧
      (∀ i : ℕ, i < 10 → i < results.length →
        ∃ fields ev : List (String × JsonValue),
          results[i]? = some (.obj fields) ∧
          results'[i]? = some (.obj (dictSet fields "reasoning_evaluation" (.obj ev))) ∧
          dictGet (dictSet fields "reasoning_evaluation" (.obj ev)) "reasoning_evaluation" =
            some (.obj ev) ∧
          ∀ k, k ≠ "reasoning_evaluation" →
            dictGet (dictSet fields "reasoning_evaluation" (.obj ev)) k = dictGet fields k) := by
  simp only [process_json_file, hres] at hout
  cases hp : processItems loads genAnswer (results.take 10) with
  | error e => rw [hp] at hout; cases hout
  | ok pr =>
    obtain ⟨processed, scores⟩ := pr
    simp only [hp] at hout
    by_cases h0 : scores.length = 0
    · rw [if_pos h0] at hout
      cases hout
    · rw [if_neg h0] at hout
      injection hout with hout
      subst hout
      obtain ⟨hplen, hslen, hpt⟩ :=
        processItems_ok loads genAnswer (results.take 10) processed scores hp
      have hpl : processed.length = min 10 results.length := by
        rw [hplen, List.length_take]
      refine ⟨processed ++ results.drop 10, ?_, ?_, ?_, ?_, ?_, ?_⟩
      · rw [dictGet_dictSet_ne _ "reasoning_average_score" "results" _ (by decide),
          dictGet_dictSet_self]
      · rw [List.length_append, hplen, List.length_take, List.length_drop]
        omega
      · intro k hk1 hk2
        rw [dictGet_dictSet_ne _ "reasoning_average_score" k _ hk2,
          dictGet_dictSet_ne _ "results" k _ hk1]
      · exact ⟨_, dictGet_dictSet_self _ _ _⟩
      · intro i hi
        rw [List.getElem?_append_right (by omega : processed.length ≤ i),
          List.getElem?_drop]
        by_cases hlen : results.length ≤ 10
        · rw [List.getElem?_eq_none (by omega), List.getElem?_eq_none (by omega)]
        · have h10 : processed.length = 10 := by omega
          have : 10 + (i - processed.length) = i := by omega
          rw [this]
      · intro i h10 hlen
        have h1 : (results.take 10)[i]? = results[i]? := List.getElem?_take_of_lt h10
        obtain ⟨fields, ev, n, hvobj, hev, hsc, hpi, hsi⟩ :=
          hpt i results[i] (by rw [h1]; exact List.getElem?_eq_getElem hlen)
        refine ⟨fields, ev, ?_, ?_, dictGet_dictSet_self _ _ _, ?_⟩
        · rw [List.getElem?_eq_getElem hlen, hvobj]
        · rw [List.getElem?_append_left (by omega : i < processed.length)]
          exact hpi
        · intro k hk
          exact dictGet_dictSet_ne _ _ _ _ hk

set_option maxRecDepth 100000 in
/-- Closed instance of the C3 theorem on the concrete eleven-record
document `w3Data`: only the first ten records are evaluated. -/
theorem process_json_file_frame_witness :
    ∃ results' : List JsonValue,
      dictGet w3Out "results" = some (.arr results') ∧
      results'.length = w3Results.length ∧
      (∀ k, k ≠ "results" → k ≠ "reasoning_average_score" →
        dictGet w3Out k = dictGet w3Data k) ∧
      (∃ avg : ℚ, dictGet w3Out "reasoning_average_score" = some (.float avg)) ∧
      (∀ i : ℕ, 10 ≤ i → results'[i]? = w3Results[i]?) ∧
      (∀ i : ℕ, i < 10 → i < w3Results.length →
        ∃ fields ev : List (String × JsonValue),
          w3Results[i]? = some (.obj fields) ∧
          results'[i]? = some (.obj (dictSet fields "reasoning_evaluation" (.obj ev))) ∧
          dictGet (dictSet fields "reasoning_evaluation" (.obj ev)) "reasoning_evaluation" =
            some (.obj ev) ∧
          ∀ k, k ≠ "reasoning_evaluation" →
            dictGet (dictSet fields "reasoning_evaluation" (.obj ev)) k = dictGet fields k) :=
  process_json_file_frame (fun _ => none) (fun _ => "resp") w3Data w3Out w3Results rfl rfl

/-- Claim C4: on a successful run the aggregate `reasoning_average_score`
equals the arithmetic mean of exactly the scores collected from the
processed records. -/
theorem process_json_file_average (loads : String → Option JsonValue)
    (genAnswer : String → String) (data out : List (String × JsonValue))
    (results processed : List JsonValue) (scores : List ℤ)
    (hres : dictGet data "results" = some (.arr results))
    (hp : processItems loads genAnswer (results.take 10) = .ok (processed, scores))
    (hout : process_json_file loads genAnswer data = .ok out) :
    scores ≠ [] ∧
    dictGet out "reasoning_average_score" =
      some (.float ((scores.sum : ℚ) / (scores.length : ℚ))) := by
  simp only [process_json_file, hres, hp] at hout
  by_cases h0 : scores.length = 0
  · rw [if_pos h0] at hout
    cases hout
  · rw [if_neg h0] at hout
    injection hout with hout
    subst hout
    refine ⟨?_, dictGet_dictSet_self _ _ _⟩
    intro hnil
    exact h0 (by rw [hnil]; rfl)

set_option maxRecDepth 100000 in
/-- Closed instance of the C4 theorem: the five-record run collects the
scores `[4, 3, 2, 1, 0]` and the aggregate comes out as exactly 2. -/
theorem process_json_file_average_witness :
    processItems wLoads id (wResults.take 10) = .ok (wProcessed, [4, 3, 2, 1, 0]) ∧
    dictGet wOut "reasoning_average_score" = some (.float 2) := by
  have h := process_json_file_average wLoads id wData wOut wResults wProcessed
    [4, 3, 2, 1, 0] rfl rfl rfl
  refine ⟨rfl, ?_⟩
  have h2 := h.2
  norm_num at h2
  exact h2
